import Mathlib

/-!
Shallow embedding of the arcade-game simulation core in src/game.js,
together with theorems checking its specified behaviour: the difficulty
scheduler, spawn kinematics, fixed-timestep frame driver, collision and
slice engine, point-to-segment geometry helper, weighted special-fruit
selection, and the session score/lives state.

Real-valued quantities of the program (positions, speeds, angles, times)
are modelled over the real numbers; exact-rational parts of the program
(the frame accumulator, the difficulty formula, the rarity weights) are
modelled over the rationals so that they evaluate by computation.
-/

open Classical

/-- A recorded blade sample, an entry of blade.positions in game.js. -/
structure TrailPoint where
  x : ℝ
  y : ℝ
  time : ℝ

/-- Half-body state of a sliced lemon: the leftHalf / rightHalf records. -/
structure Half where
  offsetX : ℝ
  offsetY : ℝ
  rotation : ℝ
  speedX : ℝ
  speedY : ℝ
  rotationSpeed : ℝ

/-- An entry of the static special-fruit catalog this.specialFruits. -/
structure SpecialFruit where
  name : String
  points : ℤ
  rarity : ℚ
  size : ℝ
  deriving Inhabited

/-- First catalog entry of this.specialFruits in game.js. -/
def lemonogata (isMobile : Bool) : SpecialFruit :=
  { name := "lemonogata", points := 300, rarity := 0.15,
    size := if isMobile then 70 else 80 }

/-- Second catalog entry of this.specialFruits in game.js. -/
def apple (isMobile : Bool) : SpecialFruit :=
  { name := "apple", points := 150, rarity := 0.15,
    size := if isMobile then 70 else 80 }

/-- Third catalog entry of this.specialFruits in game.js. -/
def grapefruit (isMobile : Bool) : SpecialFruit :=
  { name := "grapefruit", points := 50, rarity := 0.15,
    size := if isMobile then 70 else 80 }

/-- Fourth catalog entry of this.specialFruits in game.js. -/
def lime (isMobile : Bool) : SpecialFruit :=
  { name := "lime", points := 100, rarity := 0.15,
    size := if isMobile then 70 else 80 }

/-- The static special-fruit catalog, in source order. -/
def specialFruits (isMobile : Bool) : List SpecialFruit :=
  [lemonogata isMobile, apple isMobile, grapefruit isMobile, lime isMobile]

/-- totalRarity in getRandomSpecialFruit: reduce over the catalog summing
rarity weights, starting from 0. -/
def totalRarity (isMobile : Bool) : ℚ :=
  (specialFruits isMobile).foldl (fun s f => s + f.rarity) 0

/-- The cumulative-subtraction loop of getRandomSpecialFruit: subtract each
rarity in catalog order and return the entry at which the remainder
reaches a value at most 0; none if the list is exhausted. -/
def selectFruit (u : ℚ) : List SpecialFruit → Option SpecialFruit
  | [] => none
  | f :: rest => if u - f.rarity ≤ 0 then some f else selectFruit (u - f.rarity) rest

/-- getRandomSpecialFruit in game.js, with the uniform draw
u = Math.random() * totalRarity passed in as a parameter.  When the loop
leaves a positive residual, the source falls back to specialFruits[0]. -/
def getRandomSpecialFruit (isMobile : Bool) (u : ℚ) : SpecialFruit :=
  match selectFruit u (specialFruits isMobile) with
  | some f => f
  | none => (specialFruits isMobile).headI

/-- difficultySettings.difficultyIncrease in game.js. -/
def difficultyIncrease : ℚ := 0.1

/-- difficultySettings.maxDifficulty in game.js. -/
def maxDifficulty : ℚ := 3

/-- updateDifficulty in game.js, with the elapsed session time
(Date.now() - gameStartTime) / 1000 passed in as a parameter. -/
def updateDifficulty (gameTimeSeconds : ℚ) : ℚ :=
  min maxDifficulty (1 + gameTimeSeconds / 10 * difficultyIncrease)

/-- difficultySettings.baseThrowForce: the device-class base throw force
(mobileSettings.baseThrowForce = -20, desktopSettings.baseThrowForce = -30). -/
def settingsBaseThrowForce (isMobile : Bool) : ℝ :=
  if isMobile then -20 else -30

/-- maxExtraForce in spawnLemons: -5 on mobile, -8 on desktop. -/
def maxExtraForce (isMobile : Bool) : ℝ :=
  if isMobile then -5 else -8

/-- throwForce in spawnLemons: minForce - u * maxExtraForce * sqrt(difficulty),
with the uniform draw u = Math.random() passed in as a parameter. -/
noncomputable def throwForce (isMobile : Bool) (u difficulty : ℝ) : ℝ :=
  settingsBaseThrowForce isMobile - u * maxExtraForce isMobile * Real.sqrt difficulty

/-- this.fixedTimeStep = 1000 / 60 milliseconds. -/
def fixedTimeStep : ℚ := 1000 / 60

/-- The while loop of gameLoop draining the time accumulator: as long as the
accumulator holds at least one fixed step, run one fixed update and subtract
the step.  The fuel argument bounds the recursion; any fuel large enough for
the loop to terminate on its own yields the loop's result.  Returns the
number of fixed updates run and the remaining accumulator. -/
def drainAccumulator : ℕ → ℚ → ℕ × ℚ
  | 0, acc => (0, acc)
  | fuel + 1, acc =>
    if fixedTimeStep ≤ acc then
      ((drainAccumulator fuel (acc - fixedTimeStep)).1 + 1,
        (drainAccumulator fuel (acc - fixedTimeStep)).2)
    else (0, acc)

/-- One gameLoop frame callback on the timing state: the raw elapsed time
since the previous callback is capped at 32 ms, added to the accumulator,
and the accumulator is drained in fixed steps. -/
def frameStep (accumulator elapsed : ℚ) (fuel : ℕ) : ℕ × ℚ :=
  drainAccumulator fuel (accumulator + min elapsed 32)

/-- pointToLineDistance in game.js: clamped point-to-segment distance with a
guard on the zero segment-length-squared denominator. -/
noncomputable def pointToLineDistance (x y x1 y1 x2 y2 : ℝ) : ℝ :=
  let A := x - x1
  let B := y - y1
  let C := x2 - x1
  let D := y2 - y1
  let dot := A * C + B * D
  let lenSq := C * C + D * D
  let param := if lenSq = 0 then -1 else dot / lenSq
  let xx := if param < 0 then x1 else if param > 1 then x2 else x1 + param * C
  let yy := if param < 0 then y1 else if param > 1 then y2 else y1 + param * D
  Real.sqrt ((x - xx) * (x - xx) + (y - yy) * (y - yy))

/-- Modelled from the spec: the direct distance from the point (x, y) to the
point (a, b), used to state the nearer-endpoint and degenerate cases. -/
noncomputable def pointDistance (x y a b : ℝ) : ℝ :=
  Real.sqrt ((x - a) * (x - a) + (y - b) * (y - b))

/-- Modelled from the spec: the perpendicular distance from the point (x, y)
to the line through (x1, y1) and (x2, y2), as the absolute cross product of
the segment direction with the offset, divided by the segment length.  This
is the comparison definition for the refinement claim about
pointToLineDistance; it is not part of the source. -/
noncomputable def perpendicularDistance (x y x1 y1 x2 y2 : ℝ) : ℝ :=
  |(x2 - x1) * (y - y1) - (y2 - y1) * (x - x1)| /
    Real.sqrt ((x2 - x1) * (x2 - x1) + (y2 - y1) * (y2 - y1))

/-- Math.atan2(y, x) over the reals. -/
noncomputable def atan2 (y x : ℝ) : ℝ :=
  if 0 < x then Real.arctan (y / x)
  else if x < 0 then
    if 0 ≤ y then Real.arctan (y / x) + Real.pi else Real.arctan (y / x) - Real.pi
  else
    if 0 < y then Real.pi / 2 else if y < 0 then -(Real.pi / 2) else 0

/-- A live projectile: the lemon records built by spawnLemons. -/
structure Lemon where
  x : ℝ
  y : ℝ
  speedX : ℝ
  speedY : ℝ
  rotation : ℝ
  rotationSpeed : ℝ
  width : ℝ
  height : ℝ
  sliced : Bool
  sliceAngle : ℝ
  isSpecial : Bool
  specialFruit : Option SpecialFruit
  leftHalf : Half
  rightHalf : Half

/-- A floating score text record pushed by createFloatingText. -/
structure FloatingText where
  x : ℝ
  y : ℝ
  text : String
  color : String
  alpha : ℝ
  scale : ℝ
  life : ℝ
  creation : ℝ

/-- getScoreColor in game.js: the score-color keys sorted descending, first
key at most the awarded points wins, default is the color of key 10. -/
def getScoreColor (points : ℤ) : String :=
  if points ≥ 300 then "#FF69B4"
  else if points ≥ 150 then "#FFA500"
  else if points ≥ 100 then "#FFD700"
  else if points ≥ 50 then "#90EE90"
  else if points ≥ 10 then "#FFFFFF"
  else "#FFFFFF"

/-- createFloatingText in game.js, with Date.now() passed in as now. -/
def createFloatingText (now x y : ℝ) (points : ℤ) : FloatingText :=
  { x := x, y := y, text := "+" ++ toString points, color := getScoreColor points,
    alpha := 1, scale := 1, life := 0.5, creation := now }

/-- One step of updateFloatingTexts: a text older than its lifespan is
dropped; a surviving text floats up and fades with its age progress. -/
noncomputable def updateFloatingText (now : ℝ) (t : FloatingText) : Option FloatingText :=
  let age := (now - t.creation) / 1000
  if age ≥ t.life then none
  else some { t with
    y := t.y - 1,
    alpha := 1 - age / t.life,
    scale := 1 + age / t.life * 0.5 }

/-- updateFloatingTexts in game.js, with Date.now() passed in as now. -/
noncomputable def updateFloatingTexts (now : ℝ) (ts : List FloatingText) : List FloatingText :=
  ts.filterMap (updateFloatingText now)

/-- The points awarded for slicing a lemon:
lemon.isSpecial ? lemon.specialFruit.points : 10.  The none case is
unreachable for lemons built by spawnLemons, which set specialFruit
whenever isSpecial holds. -/
def slicePoints (l : Lemon) : ℤ :=
  if l.isSpecial then
    match l.specialFruit with
    | some f => f.points
    | none => 0
  else 10

/-- The hit radius of checkCollision: 40 for special fruits, 30 otherwise. -/
def hitRadius (l : Lemon) : ℝ :=
  if l.isSpecial then 40 else 30

/-- The consecutive pairs (positions[i-1], positions[i]) traversed by the
collision loop, oldest first. -/
def consecutivePairs : List TrailPoint → List (TrailPoint × TrailPoint)
  | p :: q :: rest => (p, q) :: consecutivePairs (q :: rest)
  | _ => []

/-- The first trail segment whose point-to-segment distance from the given
center is below the radius, in traversal order; none when no segment
qualifies. -/
noncomputable def findHitSegment (cx cy radius : ℝ) :
    List (TrailPoint × TrailPoint) → Option (TrailPoint × TrailPoint)
  | [] => none
  | (s, e) :: rest =>
    if pointToLineDistance cx cy s.x s.y e.x e.y < radius then some (s, e)
    else findHitSegment cx cy radius rest

/-- checkCollision in game.js, with Date.now() passed in as now.  An already
sliced lemon reports no hit.  On the first qualifying segment, the slice
angle and the two half states are derived and a floating score text is
created at the lemon center; the hit result carries the modified lemon and
the emitted text.  The sliced flag itself is set by the caller updateGame. -/
noncomputable def checkCollision (now : ℝ) (blade : List TrailPoint) (l : Lemon) :
    Option (Lemon × FloatingText) :=
  if l.sliced = true then none
  else
    match findHitSegment (l.x + l.width / 2) (l.y + l.height / 2) (hitRadius l)
        (consecutivePairs blade) with
    | none => none
    | some (s, e) =>
      let angle := atan2 (e.y - s.y) (e.x - s.x)
      let sliceForce : ℝ := 8
      let perpAngle := angle + Real.pi / 2
      some ({ l with
          sliceAngle := angle,
          leftHalf :=
            { offsetX := 0, offsetY := 0, rotation := l.rotation,
              speedX := l.speedX - Real.cos perpAngle * sliceForce,
              speedY := l.speedY - Real.sin perpAngle * sliceForce,
              rotationSpeed := -0.1 },
          rightHalf :=
            { offsetX := 0, offsetY := 0, rotation := l.rotation,
              speedX := l.speedX + Real.cos perpAngle * sliceForce,
              speedY := l.speedY + Real.sin perpAngle * sliceForce,
              rotationSpeed := 0.1 } },
        createFloatingText now (l.x + l.width / 2) (l.y + l.height / 2) (slicePoints l))

/-- One fixed-step integration of a half state: translate by its velocity,
add gravity to its vertical speed, advance its rotation, all scaled by
dt * 60 so the speed units match a 60 Hz reference frame. -/
def integrateHalf (gravity dt : ℝ) (h : Half) : Half :=
  { h with
    offsetX := h.offsetX + h.speedX * dt * 60,
    offsetY := h.offsetY + h.speedY * dt * 60,
    speedY := h.speedY + gravity * dt * 60,
    rotation := h.rotation + h.rotationSpeed * dt * 60 }

/-- The integration part of the updateGame loop body: an unsliced lemon
moves as a whole; a sliced lemon integrates its two halves independently. -/
def integrateLemon (gravity dt : ℝ) (l : Lemon) : Lemon :=
  if l.sliced = false then
    { l with
      x := l.x + l.speedX * dt * 60,
      y := l.y + l.speedY * dt * 60,
      speedY := l.speedY + gravity * dt * 60,
      rotation := l.rotation + l.rotationSpeed * dt * 60 }
  else
    { l with
      leftHalf := integrateHalf gravity dt l.leftHalf,
      rightHalf := integrateHalf gravity dt l.rightHalf }

/-- handleBoundaryCollision in game.js: clamp to the playfield edges and
reflect the horizontal speed with restitution 0.8; for a sliced lemon each
half is handled independently through its offset. -/
noncomputable def handleBoundaryCollision (canvasWidth : ℝ) (l : Lemon) : Lemon :=
  if l.sliced = false then
    if l.x < 0 then { l with x := 0, speedX := |l.speedX| * 0.8 }
    else if l.x + l.width > canvasWidth then
      { l with x := canvasWidth - l.width, speedX := -|l.speedX| * 0.8 }
    else l
  else
    let left :=
      if l.x + l.leftHalf.offsetX < 0 then
        { l.leftHalf with offsetX := -l.x, speedX := |l.leftHalf.speedX| * 0.8 }
      else if l.x + l.leftHalf.offsetX + l.width > canvasWidth then
        { l.leftHalf with
          offsetX := canvasWidth - l.width - l.x,
          speedX := -|l.leftHalf.speedX| * 0.8 }
      else l.leftHalf
    let right :=
      if l.x + l.rightHalf.offsetX < 0 then
        { l.rightHalf with offsetX := -l.x, speedX := |l.rightHalf.speedX| * 0.8 }
      else if l.x + l.rightHalf.offsetX + l.width > canvasWidth then
        { l.rightHalf with
          offsetX := canvasWidth - l.width - l.x,
          speedX := -|l.rightHalf.speedX| * 0.8 }
      else l.rightHalf
    { l with leftHalf := left, rightHalf := right }

/-- The per-frame session state of the game singleton that the simulation
core reads and writes. -/
structure GameState where
  lemons : List Lemon
  score : ℤ
  lives : ℤ
  fruitsSliced : ℤ
  gameActive : Bool
  difficulty : ℝ
  floatingTexts : List FloatingText
  blade : List TrailPoint
  canvasWidth : ℝ
  canvasHeight : ℝ
  gravity : ℝ

/-- The expiry part of the updateGame loop body: an unsliced lemon past the
bottom threshold is removed and costs a life, with gameOver once lives
reach a value at most 0; a sliced lemon is removed once both half offsets
pass the same numeric threshold; otherwise the lemon is kept. -/
noncomputable def expireStep (acc : GameState) (l : Lemon) : GameState :=
  if l.sliced = false ∧ l.y > acc.canvasHeight + 100 then
    { acc with
      lives := acc.lives - 1,
      gameActive := if acc.lives - 1 ≤ 0 then false else acc.gameActive }
  else if l.sliced = true ∧ l.leftHalf.offsetY > acc.canvasHeight + 100 ∧
      l.rightHalf.offsetY > acc.canvasHeight + 100 then
    acc
  else { acc with lemons := l :: acc.lemons }

/-- The collision-and-scoring part of the updateGame loop body, applied to a
lemon that has already been integrated and boundary-handled: on a hit the
lemon is marked sliced, the score and the slice counter grow, and the
floating text is recorded, then the expiry check runs. -/
noncomputable def collideAndExpire (now : ℝ) (acc : GameState) (l : Lemon) : GameState :=
  match checkCollision now acc.blade l with
  | some (lh, emit) =>
    expireStep
      { acc with
        score := acc.score + slicePoints lh,
        fruitsSliced := acc.fruitsSliced + 1,
        floatingTexts := acc.floatingTexts ++ [emit] }
      { lh with sliced := true }
  | none => expireStep acc l

/-- The whole updateGame loop body for one lemon: integrate, handle the
boundary, test the blade trail, score, expire. -/
noncomputable def bodyStep (dt now : ℝ) (acc : GameState) (l : Lemon) : GameState :=
  collideAndExpire now acc
    (handleBoundaryCollision acc.canvasWidth (integrateLemon acc.gravity dt l))

/-- updateGame in game.js for one fixed step of deltaMs milliseconds, with
Date.now() passed in as now.  The floating texts age first; then the lemon
array is traversed from its last element to its first while removed lemons
are spliced out, which the fold over the reversed list reproduces, kept
lemons being prepended so the survivors keep their original order. -/
noncomputable def updateGame (s : GameState) (deltaMs now : ℝ) : GameState :=
  let dt := deltaMs / 1000
  s.lemons.reverse.foldl (bodyStep dt now)
    { s with
      lemons := [],
      floatingTexts := updateFloatingTexts now s.floatingTexts }

/-- startGame in game.js restricted to the simulation state: score, lives,
bodies, slice counter, blade trail and difficulty are reset and the session
becomes active. -/
def startGame (s : GameState) : GameState :=
  { s with
    score := 0,
    lives := 3,
    lemons := [],
    fruitsSliced := 0,
    gameActive := true,
    difficulty := 1,
    blade := [] }

/-- A lemon is well formed when a special lemon carries a catalog entry with
a positive point value, as every lemon built by spawnLemons does. -/
def WFLemon (l : Lemon) : Prop :=
  l.isSpecial = true → ∃ f, l.specialFruit = some f ∧ 0 < f.points

/-- The zero half state that spawnLemons installs on both halves. -/
def zeroHalf : Half :=
  { offsetX := 0, offsetY := 0, rotation := 0, speedX := 0, speedY := 0,
    rotationSpeed := 0 }

/-- A concrete session state with no live bodies, used to evaluate the
state-level theorems on explicit inputs. -/
def emptyState : GameState :=
  { lemons := [], score := 0, lives := 3, fruitsSliced := 0, gameActive := true,
    difficulty := 1, floatingTexts := [], blade := [], canvasWidth := 800,
    canvasHeight := 600, gravity := 0.3 }

/-- A concrete unsliced regular lemon resting far below the playfield. -/
def demoLemonA : Lemon :=
  { x := 0, y := 1000, speedX := 0, speedY := 0, rotation := 0,
    rotationSpeed := 0, width := 60, height := 40, sliced := false,
    sliceAngle := 0, isSpecial := false, specialFruit := none,
    leftHalf := zeroHalf, rightHalf := zeroHalf }

/-- A concrete session state with one life left and two expired unsliced
lemons in the same fixed tick. -/
def livesDemoState : GameState :=
  { emptyState with
    lives := 1,
    lemons := [demoLemonA, demoLemonA],
    canvasHeight := 100 }

/-- A half state that has fallen 150 units below its parent position. -/
def c4Half : Half :=
  { zeroHalf with offsetY := 150 }

/-- A concrete sliced lemon whose halves sit at parent y = 500 with offsets
150: both absolute positions are far past canvasHeight + 100 = 200, while
both offsets alone are not. -/
def c4SlicedLemon : Lemon :=
  { demoLemonA with
    y := 500,
    sliced := true,
    leftHalf := c4Half,
    rightHalf := c4Half }

/-- A concrete session state holding only c4SlicedLemon, with gravity 0 so
the tick leaves the half offsets unchanged. -/
def c4State : GameState :=
  { emptyState with
    lemons := [c4SlicedLemon],
    canvasHeight := 100,
    gravity := 0 }

/-- A concrete unsliced regular lemon whose center is (50, 100). -/
def c5Lemon : Lemon :=
  { demoLemonA with x := 20, y := 80, speedY := -10 }

/-- A concrete session state whose blade trail runs horizontally through
the center of c5Lemon. -/
def c5State : GameState :=
  { emptyState with
    blade := [{ x := 0, y := 100, time := 0 }, { x := 100, y := 100, time := 0 }] }

/-- A concrete already-sliced lemon. -/
def c6Lemon : Lemon :=
  { demoLemonA with sliced := true }

/-- C8: updateDifficulty equals min(maxDifficulty, 1 + (t / 10) × rate); it
is monotone in the elapsed time, at least 1 and at most maxDifficulty for
nonnegative elapsed times, and yields exactly 2 at t = 100 seconds. -/
theorem updateDifficulty_spec (t : ℚ) (ht : 0 ≤ t) :
    updateDifficulty t = min maxDifficulty (1 + t / 10 * difficultyIncrease) ∧
    (∀ u : ℚ, t ≤ u → updateDifficulty t ≤ updateDifficulty u) ∧
    1 ≤ updateDifficulty t ∧ updateDifficulty t ≤ maxDifficulty ∧
    updateDifficulty 100 = 2 := by
  refine ⟨rfl, ?_, ?_, min_le_left _ _, ?_⟩
  · intro u hu
    unfold updateDifficulty difficultyIncrease
    apply min_le_min le_rfl
    nlinarith
  · unfold updateDifficulty maxDifficulty difficultyIncrease
    rw [le_min_iff]
    constructor <;> nlinarith
  · unfold updateDifficulty maxDifficulty difficultyIncrease
    norm_num

/-- Witness for updateDifficulty_spec at the elapsed time 100 seconds. -/
theorem updateDifficulty_spec_witness :
    updateDifficulty 100 = 2 ∧ 1 ≤ updateDifficulty 100 ∧
    updateDifficulty 100 ≤ maxDifficulty ∧
    updateDifficulty 100 ≤ updateDifficulty 200 :=
  ⟨(updateDifficulty_spec 100 (by norm_num)).2.2.2.2,
   (updateDifficulty_spec 100 (by norm_num)).2.2.1,
   (updateDifficulty_spec 100 (by norm_num)).2.2.2.1,
   (updateDifficulty_spec 100 (by norm_num)).2.1 200 (by norm_num)⟩

/-- C1 evaluation at the failing input: on mobile with uniform draw 1/2 and
difficulty 1, spawnLemons computes the vertical speed
-20 - (1/2 × (-5) × √1) = -35/2, which is strictly above the base throw
force -20: the launch magnitude falls below the base instead of growing
with the square root of difficulty, because maxExtraForce is negative and
the product is subtracted. -/
theorem throwForce_above_base :
    throwForce true (1/2) 1 = -(35/2 : ℝ) ∧
    settingsBaseThrowForce true < throwForce true (1/2) 1 := by
  constructor <;>
    norm_num [throwForce, settingsBaseThrowForce, maxExtraForce, Real.sqrt_one]

/-- Helper: the drained frame at an empty accumulator and a 40 ms elapsed
time yields 1 update and a 46/3 ms remainder, for every sufficient fuel. -/
theorem frameStep_forty_eval (fuel : ℕ) : frameStep 0 40 (fuel + 2) = (1, 46/3) := by
  have hd : (0 : ℚ) + min 40 32 = 32 := by norm_num
  unfold frameStep
  rw [hd]
  show drainAccumulator (fuel + 1 + 1) 32 = (1, 46/3)
  rw [drainAccumulator]
  rw [if_pos (by norm_num [fixedTimeStep])]
  rw [drainAccumulator]
  rw [if_neg (by norm_num [fixedTimeStep])]
  norm_num [fixedTimeStep]

/-- C2 counterexample: a frame callback whose real elapsed time is 40 ms,
entering with an empty accumulator, does NOT run 2 fixed updates: the delta
is capped at 32 ms first, so only 1 fixed update fits. -/
theorem frameStep_40ms_counterexample :
    (frameStep 0 40 2).1 ≠ 2 ∧ frameStep 0 40 2 = (1, 46/3) := by
  have h : frameStep 0 40 2 = (1, 46/3) := frameStep_forty_eval 0
  rw [h]
  exact ⟨by norm_num, rfl⟩

/-- C2 amended: with fixed timestep 1000/60 ms and an empty accumulator, a
frame callback with a real elapsed time of 40 ms has its delta capped at
32 ms, runs exactly 1 fixed update, and carries 32 - 1000/60 = 46/3 ms
(about 15.33 ms) in the accumulator, for every sufficient loop fuel. -/
theorem frameStep_40ms (fuel : ℕ) : frameStep 0 40 (fuel + 2) = (1, 46/3) :=
  frameStep_forty_eval fuel

/-- C9 counterexample: at the draw u = 1, which exceeds the total weight
3/5 and so leaves a positive residual after subtracting every rarity, the
fallback of getRandomSpecialFruit returns the FIRST catalog entry
(lemonogata), not the last one (lime). -/
theorem getRandomSpecialFruit_fallback_not_last :
    getRandomSpecialFruit false 1 = lemonogata false ∧
    totalRarity false < 1 ∧
    (lemonogata false).name ≠ (lime false).name := by
  refine ⟨?_, ?_, ?_⟩
  · norm_num [getRandomSpecialFruit, selectFruit, specialFruits, lemonogata,
      apple, grapefruit, lime, List.headI]
  · norm_num [totalRarity, specialFruits, lemonogata, apple, grapefruit, lime]
  · simp [lemonogata, lime]

/-- C9 amended: for every draw u in [0, totalRarity] the weighted selection
returns a catalog entry and never fails: it returns the first entry in
catalog order at which the running subtraction of weights from u reaches a
value at most 0 (equivalently, the entry under whose cumulative weight u
falls); and when the subtraction leaves a positive residual (u beyond the
total weight), the fallback is the FIRST catalog entry. -/
theorem getRandomSpecialFruit_spec (m : Bool) (u : ℚ) :
    (0 ≤ u → u ≤ totalRarity m →
      getRandomSpecialFruit m u =
        (if u ≤ 3/20 then lemonogata m
         else if u ≤ 3/10 then apple m
         else if u ≤ 9/20 then grapefruit m
         else lime m) ∧
      getRandomSpecialFruit m u ∈ specialFruits m) ∧
    (totalRarity m < u →
      getRandomSpecialFruit m u = (specialFruits m).headI ∧
      (specialFruits m).headI = lemonogata m) := by
  have htot : totalRarity m = 3/5 := by
    norm_num [totalRarity, specialFruits, lemonogata, apple, grapefruit, lime]
  constructor
  · intro h0 h1
    rw [htot] at h1
    have hsel : getRandomSpecialFruit m u =
        (if u ≤ 3/20 then lemonogata m
         else if u ≤ 3/10 then apple m
         else if u ≤ 9/20 then grapefruit m
         else lime m) := by
      simp only [getRandomSpecialFruit, selectFruit, specialFruits, lemonogata,
        apple, grapefruit, lime]
      norm_num
      split_ifs <;> rfl
    refine ⟨hsel, ?_⟩
    rw [hsel]
    simp only [specialFruits]
    split_ifs <;> simp
  · intro hgt
    rw [htot] at hgt
    constructor
    · simp only [getRandomSpecialFruit, selectFruit, specialFruits, lemonogata,
        apple, grapefruit, lime]
      norm_num
      split_ifs <;> first | rfl | (exfalso; linarith)
    · rfl

/-- Witness for getRandomSpecialFruit_spec at the draw u = 1/2, which falls
in the fourth cumulative-weight band and selects lime. -/
theorem getRandomSpecialFruit_spec_witness :
    getRandomSpecialFruit false (1/2) = lime false ∧
    getRandomSpecialFruit false (1/2) ∈ specialFruits false := by
  have h := (getRandomSpecialFruit_spec false (1/2)).1 (by norm_num)
    (by norm_num [totalRarity, specialFruits, lemonogata, apple, grapefruit, lime])
  refine ⟨?_, h.2⟩
  rw [h.1]
  norm_num

/-- Helper: the distance from (A, B) to its projection foot on the segment
direction (C, D) equals the absolute 2D cross product over the segment
length. -/
theorem foot_dist_eq (A B C D : ℝ) (h : C * C + D * D ≠ 0) :
    Real.sqrt ((A - (A * C + B * D) / (C * C + D * D) * C) *
        (A - (A * C + B * D) / (C * C + D * D) * C) +
      (B - (A * C + B * D) / (C * C + D * D) * D) *
        (B - (A * C + B * D) / (C * C + D * D) * D)) =
    |C * B - D * A| / Real.sqrt (C * C + D * D) := by
  have key : (A - (A * C + B * D) / (C * C + D * D) * C) *
        (A - (A * C + B * D) / (C * C + D * D) * C) +
      (B - (A * C + B * D) / (C * C + D * D) * D) *
        (B - (A * C + B * D) / (C * C + D * D) * D) =
      (C * B - D * A) ^ 2 / (C * C + D * D) := by
    field_simp
    ring
  rw [key, Real.sqrt_div (sq_nonneg _), Real.sqrt_sq_eq_abs]

/-- C7: pointToLineDistance equals the perpendicular distance to the line
when the projection parameter lies in [0, 1]; equals the distance to the
nearer endpoint when the parameter falls outside [0, 1]; and on a
degenerate zero-length segment it divides by nothing and returns the direct
point distance to the coincident endpoints. -/
theorem pointToLineDistance_spec (x y x1 y1 x2 y2 : ℝ) :
    ((x2 - x1) * (x2 - x1) + (y2 - y1) * (y2 - y1) ≠ 0 →
      0 ≤ ((x - x1) * (x2 - x1) + (y - y1) * (y2 - y1)) /
          ((x2 - x1) * (x2 - x1) + (y2 - y1) * (y2 - y1)) →
      ((x - x1) * (x2 - x1) + (y - y1) * (y2 - y1)) /
          ((x2 - x1) * (x2 - x1) + (y2 - y1) * (y2 - y1)) ≤ 1 →
      pointToLineDistance x y x1 y1 x2 y2 = perpendicularDistance x y x1 y1 x2 y2) ∧
    ((x2 - x1) * (x2 - x1) + (y2 - y1) * (y2 - y1) ≠ 0 →
      (((x - x1) * (x2 - x1) + (y - y1) * (y2 - y1)) /
          ((x2 - x1) * (x2 - x1) + (y2 - y1) * (y2 - y1)) < 0 ∨
        1 < ((x - x1) * (x2 - x1) + (y - y1) * (y2 - y1)) /
          ((x2 - x1) * (x2 - x1) + (y2 - y1) * (y2 - y1))) →
      pointToLineDistance x y x1 y1 x2 y2 =
        min (pointDistance x y x1 y1) (pointDistance x y x2 y2)) ∧
    (x1 = x2 → y1 = y2 →
      pointToLineDistance x y x1 y1 x2 y2 = pointDistance x y x1 y1) := by
  have hA : ∀ t : ℝ, x - (x1 + t) = x - x1 - t := fun t => by ring
  have hB : ∀ t : ℝ, y - (y1 + t) = y - y1 - t := fun t => by ring
  refine ⟨?_, ?_, ?_⟩
  · intro hne h0 h1
    simp only [pointToLineDistance, perpendicularDistance]
    rw [if_neg hne, if_neg (not_lt.2 h0), if_neg (not_lt.2 h1),
      if_neg (not_lt.2 h0), if_neg (not_lt.2 h1), hA, hB]
    exact foot_dist_eq (x - x1) (y - y1) (x2 - x1) (y2 - y1) hne
  · intro hne hout
    have hpos : 0 < (x2 - x1) * (x2 - x1) + (y2 - y1) * (y2 - y1) :=
      lt_of_le_of_ne
        (by nlinarith [mul_self_nonneg (x2 - x1), mul_self_nonneg (y2 - y1)])
        (Ne.symm hne)
    rcases hout with hlt | hgt
    · have hdot : (x - x1) * (x2 - x1) + (y - y1) * (y2 - y1) < 0 := by
        rcases div_neg_iff.mp hlt with ⟨_, hb⟩ | ⟨ha, _⟩
        · linarith
        · exact ha
      have hle : pointDistance x y x1 y1 ≤ pointDistance x y x2 y2 := by
        unfold pointDistance
        apply Real.sqrt_le_sqrt
        nlinarith
      simp only [pointToLineDistance]
      rw [if_neg hne, if_pos hlt, if_pos hlt, min_eq_left hle]
      rfl
    · have hdot : (x2 - x1) * (x2 - x1) + (y2 - y1) * (y2 - y1) <
          (x - x1) * (x2 - x1) + (y - y1) * (y2 - y1) := by
        rwa [one_lt_div hpos] at hgt
      have hnn : ¬ ((x - x1) * (x2 - x1) + (y - y1) * (y2 - y1)) /
          ((x2 - x1) * (x2 - x1) + (y2 - y1) * (y2 - y1)) < 0 :=
        not_lt.2 (le_of_lt (lt_trans zero_lt_one hgt))
      have hle : pointDistance x y x2 y2 ≤ pointDistance x y x1 y1 := by
        unfold pointDistance
        apply Real.sqrt_le_sqrt
        nlinarith
      simp only [pointToLineDistance]
      rw [if_neg hne, if_neg hnn, if_pos hgt, if_neg hnn, if_pos hgt,
        min_eq_right hle]
      rfl
  · intro hx hy
    subst hx
    subst hy
    norm_num [pointToLineDistance, pointDistance]

/-- Witness for pointToLineDistance_spec: an interior projection, a
beyond-the-far-endpoint projection, and a degenerate zero-length segment. -/
theorem pointToLineDistance_spec_witness :
    pointToLineDistance 1 1 0 0 2 0 = perpendicularDistance 1 1 0 0 2 0 ∧
    pointToLineDistance 3 0 0 0 1 0 =
      min (pointDistance 3 0 0 0) (pointDistance 3 0 1 0) ∧
    pointToLineDistance 0 0 5 5 5 5 = pointDistance 0 0 5 5 :=
  ⟨(pointToLineDistance_spec 1 1 0 0 2 0).1 (by norm_num) (by norm_num) (by norm_num),
   (pointToLineDistance_spec 3 0 0 0 1 0).2.1 (by norm_num) (Or.inr (by norm_num)),
   (pointToLineDistance_spec 0 0 5 5 5 5).2.2 rfl rfl⟩

/-- Helper: one expiry check lowers lives by at most one and never raises
them. -/
theorem expireStep_lives (acc : GameState) (l : Lemon) :
    (expireStep acc l).lives ≤ acc.lives ∧ acc.lives - 1 ≤ (expireStep acc l).lives := by
  unfold expireStep
  split_ifs <;> simp

/-- Helper: one collision-plus-expiry step lowers lives by at most one and
never raises them. -/
theorem collideAndExpire_lives (now : ℝ) (acc : GameState) (l : Lemon) :
    (collideAndExpire now acc l).lives ≤ acc.lives ∧
    acc.lives - 1 ≤ (collideAndExpire now acc l).lives := by
  unfold collideAndExpire
  cases h : checkCollision now acc.blade l with
  | none => exact expireStep_lives acc l
  | some p =>
    obtain ⟨lh, emit⟩ := p
    have hb := expireStep_lives
      { acc with
        score := acc.score + slicePoints lh,
        fruitsSliced := acc.fruitsSliced + 1,
        floatingTexts := acc.floatingTexts ++ [emit] }
      { lh with sliced := true }
    simpa using hb

/-- Helper: one whole loop-body step lowers lives by at most one and never
raises them. -/
theorem bodyStep_lives (dt now : ℝ) (acc : GameState) (l : Lemon) :
    (bodyStep dt now acc l).lives ≤ acc.lives ∧
    acc.lives - 1 ≤ (bodyStep dt now acc l).lives :=
  collideAndExpire_lives now acc _

/-- Helper: over a list of lemons, lives never rise and drop by at most the
list length. -/
theorem foldl_bodyStep_lives (dt now : ℝ) :
    ∀ (L : List Lemon) (acc : GameState),
      (L.foldl (bodyStep dt now) acc).lives ≤ acc.lives ∧
      acc.lives - (L.length : ℤ) ≤ (L.foldl (bodyStep dt now) acc).lives := by
  intro L
  induction L with
  | nil => intro acc; simp
  | cons l L ih =>
    intro acc
    have h1 := bodyStep_lives dt now acc l
    have h2 := ih (bodyStep dt now acc l)
    simp only [List.foldl_cons, List.length_cons] at *
    constructor
    · exact le_trans h2.1 h1.1
    · push_cast
      omega

/-- C3 amended: lives start at 3 (startGame); a fixed tick never raises
lives and lowers them by at most one per live body, with no clamping, so a
tick that begins with at least as many lives as live bodies cannot drive
lives below zero -- but nothing stops lives from going negative when more
unsliced bodies expire in one tick than there are lives left. -/
theorem updateGame_lives_spec (s : GameState) (deltaMs now : ℝ) :
    (updateGame s deltaMs now).lives ≤ s.lives ∧
    s.lives - (s.lemons.length : ℤ) ≤ (updateGame s deltaMs now).lives ∧
    ((s.lemons.length : ℤ) ≤ s.lives → 0 ≤ (updateGame s deltaMs now).lives) ∧
    (startGame s).lives = 3 := by
  have hu : updateGame s deltaMs now =
      s.lemons.reverse.foldl (bodyStep (deltaMs / 1000) now)
        { s with
          lemons := [],
          floatingTexts := updateFloatingTexts now s.floatingTexts } := rfl
  have h := foldl_bodyStep_lives (deltaMs / 1000) now s.lemons.reverse
    { s with
      lemons := [],
      floatingTexts := updateFloatingTexts now s.floatingTexts }
  rw [List.length_reverse] at h
  simp only at h
  rw [hu]
  refine ⟨h.1, h.2, fun hle => ?_, rfl⟩
  omega

/-- Witness for updateGame_lives_spec on the empty concrete state. -/
theorem updateGame_lives_spec_witness :
    0 ≤ (updateGame emptyState (1000/60) 0).lives :=
  (updateGame_lives_spec emptyState (1000/60) 0).2.2.1 (by simp [emptyState])

/-- C3 counterexample: in the tick in which the last life is lost, a second
expiring unsliced body drives lives to -1: the claim that every operation
keeps lives nonnegative by clamping fails, because updateGame decrements
without any clamp and keeps processing bodies after game over triggers. -/
theorem updateGame_lives_negative :
    (updateGame livesDemoState (1000/60) 0).lives = -1 ∧
    (updateGame livesDemoState (1000/60) 0).lives < 0 := by
  have h : (updateGame livesDemoState (1000/60) 0).lives = -1 := by
    norm_num [updateGame, bodyStep, collideAndExpire, expireStep, checkCollision,
      findHitSegment, consecutivePairs, integrateLemon, handleBoundaryCollision,
      updateFloatingTexts, livesDemoState, emptyState, demoLemonA, zeroHalf]
  exact ⟨h, by rw [h]; norm_num⟩

/-- Helper: integration never changes the sliced flag. -/
theorem integrateLemon_sliced (g dt : ℝ) (l : Lemon) :
    (integrateLemon g dt l).sliced = l.sliced := by
  unfold integrateLemon
  split_ifs <;> rfl

/-- Helper: boundary handling never changes the sliced flag. -/
theorem handleBoundaryCollision_sliced (cw : ℝ) (l : Lemon) :
    (handleBoundaryCollision cw l).sliced = l.sliced := by
  unfold handleBoundaryCollision
  split_ifs <;> rfl

/-- Helper: an already sliced lemon reports no hit. -/
theorem checkCollision_sliced_none (now : ℝ) (blade : List TrailPoint) (l : Lemon)
    (h : l.sliced = true) : checkCollision now blade l = none := by
  unfold checkCollision
  rw [if_pos h]

/-- C4 amended: a sliced body is removed by the tick exactly when both of
its (integrated, boundary-handled) half offsets offsetY exceed
canvasHeight + 100 -- the comparison uses each half's offsetY relative to
the frozen parent position, not the absolute position parent y + offsetY;
and its processing never changes lives or score. -/
theorem bodyStep_slicedRemoval (dt now : ℝ) (acc : GameState) (l : Lemon)
    (hsl : l.sliced = true) :
    ((bodyStep dt now acc l).lemons = acc.lemons ↔
      ((handleBoundaryCollision acc.canvasWidth (integrateLemon acc.gravity dt l)).leftHalf.offsetY >
          acc.canvasHeight + 100 ∧
        (handleBoundaryCollision acc.canvasWidth (integrateLemon acc.gravity dt l)).rightHalf.offsetY >
          acc.canvasHeight + 100)) ∧
    (bodyStep dt now acc l).lives = acc.lives ∧
    (bodyStep dt now acc l).score = acc.score := by
  set l2 := handleBoundaryCollision acc.canvasWidth (integrateLemon acc.gravity dt l) with hl2
  have hsl2 : l2.sliced = true := by
    rw [hl2, handleBoundaryCollision_sliced, integrateLemon_sliced, hsl]
  have hcc : checkCollision now acc.blade l2 = none :=
    checkCollision_sliced_none _ _ _ hsl2
  have hb : bodyStep dt now acc l = expireStep acc l2 := by
    unfold bodyStep collideAndExpire
    rw [← hl2, hcc]
  rw [hb]
  unfold expireStep
  rw [if_neg (by simp [hsl2])]
  by_cases hoff : l2.leftHalf.offsetY > acc.canvasHeight + 100 ∧
      l2.rightHalf.offsetY > acc.canvasHeight + 100
  · rw [if_pos ⟨hsl2, hoff.1, hoff.2⟩]
    exact ⟨⟨fun _ => hoff, fun _ => rfl⟩, rfl, rfl⟩
  · rw [if_neg (by tauto)]
    refine ⟨⟨fun he => ?_, fun hc => absurd hc hoff⟩, rfl, rfl⟩
    exfalso
    simp only at he
    exact List.cons_ne_self l2 acc.lemons he

/-- Witness for bodyStep_slicedRemoval on a concrete sliced lemon. -/
theorem bodyStep_slicedRemoval_witness :
    (bodyStep 0 0 c4State c6Lemon).lives = c4State.lives ∧
    (bodyStep 0 0 c4State c6Lemon).score = c4State.score :=
  ⟨(bodyStep_slicedRemoval 0 0 c4State c6Lemon rfl).2.1,
   (bodyStep_slicedRemoval 0 0 c4State c6Lemon rfl).2.2⟩

/-- C4 counterexample: both halves of c4SlicedLemon stand at absolute
vertical position 650, far past the bottom threshold
canvasHeight + 100 = 200 that the claim names, yet the tick does NOT remove
the body, because the source compares each half's offsetY (here 150) to
the threshold instead of parent y + offsetY. -/
theorem updateGame_keepsSlicedLemon :
    (updateGame c4State (1000/60) 0).lemons.length = 1 ∧
    c4SlicedLemon.y + c4SlicedLemon.leftHalf.offsetY > c4State.canvasHeight + 100 ∧
    c4SlicedLemon.y + c4SlicedLemon.rightHalf.offsetY > c4State.canvasHeight + 100 := by
  refine ⟨?_, ?_, ?_⟩
  · norm_num [updateGame, bodyStep, collideAndExpire, expireStep, checkCollision,
      findHitSegment, consecutivePairs, integrateLemon, handleBoundaryCollision,
      integrateHalf, updateFloatingTexts, c4State, c4SlicedLemon, c4Half,
      emptyState, demoLemonA, zeroHalf]
  · norm_num [c4SlicedLemon, c4Half, c4State, emptyState, demoLemonA, zeroHalf]
  · norm_num [c4SlicedLemon, c4Half, c4State, emptyState, demoLemonA, zeroHalf]

/-- Helper: when the collision test reports a hit, the loop body applies the
expiry check to the modified lemon with its sliced flag set, on the session
state with the score, slice counter and floating text updated. -/
theorem collideAndExpire_hit (now : ℝ) (acc : GameState) (l lh : Lemon)
    (emit : FloatingText) (h : checkCollision now acc.blade l = some (lh, emit)) :
    collideAndExpire now acc l =
      expireStep
        { acc with
          score := acc.score + slicePoints lh,
          fruitsSliced := acc.fruitsSliced + 1,
          floatingTexts := acc.floatingTexts ++ [emit] }
        { lh with sliced := true } := by
  unfold collideAndExpire
  rw [h]

/-- Helper: a lemon that expires through neither branch is appended to the
survivors and the session state is otherwise untouched. -/
theorem expireStep_keep (acc : GameState) (l : Lemon)
    (h1 : ¬(l.sliced = false ∧ l.y > acc.canvasHeight + 100))
    (h2 : ¬(l.sliced = true ∧ l.leftHalf.offsetY > acc.canvasHeight + 100 ∧
        l.rightHalf.offsetY > acc.canvasHeight + 100)) :
    expireStep acc l = { acc with lemons := l :: acc.lemons } := by
  unfold expireStep
  rw [if_neg h1, if_neg h2]

/-- C5: when a hit registers on an unsliced body (first qualifying trail
segment wins, hit radius 30 regular or 40 special), the tick marks the body
sliced with sliceAngle = atan2 of the segment delta, gives the left and
right halves the parent velocity minus and plus the perpendicular direction
(cos, sin)(sliceAngle + pi/2) times sliceForce 8, starts both half
rotations at the parent rotation with rotation speeds -0.1 and +0.1, emits
the floating score text at the body center, and adds exactly 10 (regular)
or the special fruit's configured point value to the score in the same
tick. -/
theorem collideAndExpire_slice_spec (now : ℝ) (acc : GameState) (l : Lemon)
    (s e : TrailPoint)
    (hns : l.sliced = false)
    (hhit : findHitSegment (l.x + l.width / 2) (l.y + l.height / 2) (hitRadius l)
        (consecutivePairs acc.blade) = some (s, e))
    (hch : 0 ≤ acc.canvasHeight + 100) :
    (collideAndExpire now acc l).lemons =
      { l with
        sliced := true,
        sliceAngle := atan2 (e.y - s.y) (e.x - s.x),
        leftHalf :=
          { offsetX := 0, offsetY := 0, rotation := l.rotation,
            speedX := l.speedX -
              Real.cos (atan2 (e.y - s.y) (e.x - s.x) + Real.pi / 2) * 8,
            speedY := l.speedY -
              Real.sin (atan2 (e.y - s.y) (e.x - s.x) + Real.pi / 2) * 8,
            rotationSpeed := -0.1 },
        rightHalf :=
          { offsetX := 0, offsetY := 0, rotation := l.rotation,
            speedX := l.speedX +
              Real.cos (atan2 (e.y - s.y) (e.x - s.x) + Real.pi / 2) * 8,
            speedY := l.speedY +
              Real.sin (atan2 (e.y - s.y) (e.x - s.x) + Real.pi / 2) * 8,
            rotationSpeed := 0.1 } } :: acc.lemons ∧
    (collideAndExpire now acc l).score = acc.score + slicePoints l ∧
    (collideAndExpire now acc l).fruitsSliced = acc.fruitsSliced + 1 ∧
    (collideAndExpire now acc l).floatingTexts = acc.floatingTexts ++
      [createFloatingText now (l.x + l.width / 2) (l.y + l.height / 2) (slicePoints l)] ∧
    (collideAndExpire now acc l).lives = acc.lives ∧
    (l.isSpecial = false → slicePoints l = 10) ∧
    (∀ f, l.isSpecial = true → l.specialFruit = some f → slicePoints l = f.points) := by
  have hns' : ¬ l.sliced = true := by simp [hns]
  have hcc : checkCollision now acc.blade l = some
      ({ l with
        sliceAngle := atan2 (e.y - s.y) (e.x - s.x),
        leftHalf :=
          { offsetX := 0, offsetY := 0, rotation := l.rotation,
            speedX := l.speedX -
              Real.cos (atan2 (e.y - s.y) (e.x - s.x) + Real.pi / 2) * 8,
            speedY := l.speedY -
              Real.sin (atan2 (e.y - s.y) (e.x - s.x) + Real.pi / 2) * 8,
            rotationSpeed := -0.1 },
        rightHalf :=
          { offsetX := 0, offsetY := 0, rotation := l.rotation,
            speedX := l.speedX +
              Real.cos (atan2 (e.y - s.y) (e.x - s.x) + Real.pi / 2) * 8,
            speedY := l.speedY +
              Real.sin (atan2 (e.y - s.y) (e.x - s.x) + Real.pi / 2) * 8,
            rotationSpeed := 0.1 } },
      createFloatingText now (l.x + l.width / 2) (l.y + l.height / 2) (slicePoints l)) := by
    unfold checkCollision
    rw [if_neg hns', hhit]
  rw [collideAndExpire_hit now acc l _ _ hcc]
  rw [expireStep_keep _ _ (by simp) (by
    intro hcon
    have h0 := hcon.2.1
    simp only at h0
    linarith [hch])]
  refine ⟨rfl, ?_, rfl, rfl, rfl, ?_, ?_⟩
  · show acc.score + slicePoints _ = acc.score + slicePoints l
    simp [slicePoints]
  · intro hreg
    simp [slicePoints, hreg]
  · intro f hsp hfr
    simp [slicePoints, hsp, hfr]

/-- Witness for collideAndExpire_slice_spec: the horizontal trail through
the center (50, 100) of a concrete regular lemon scores 10 and costs no
life. -/
theorem collideAndExpire_slice_spec_witness :
    (collideAndExpire 0 c5State c5Lemon).score = c5State.score + slicePoints c5Lemon ∧
    (collideAndExpire 0 c5State c5Lemon).lives = c5State.lives ∧
    (collideAndExpire 0 c5State c5Lemon).fruitsSliced = c5State.fruitsSliced + 1 ∧
    slicePoints c5Lemon = 10 := by
  have h := collideAndExpire_slice_spec 0 c5State c5Lemon
    { x := 0, y := 100, time := 0 } { x := 100, y := 100, time := 0 }
    rfl
    (by norm_num [findHitSegment, consecutivePairs, pointToLineDistance, hitRadius,
      c5State, c5Lemon, demoLemonA, emptyState, Real.sqrt_zero])
    (by norm_num [c5State, emptyState])
  exact ⟨h.2.1, h.2.2.2.2.1, h.2.2.1, h.2.2.2.2.2.1 rfl⟩

/-- Helper: the expiry check never changes score, slice counter or floating
texts. -/
theorem expireStep_session (acc : GameState) (l : Lemon) :
    (expireStep acc l).score = acc.score ∧
    (expireStep acc l).fruitsSliced = acc.fruitsSliced ∧
    (expireStep acc l).floatingTexts = acc.floatingTexts := by
  unfold expireStep
  split_ifs <;> exact ⟨rfl, rfl, rfl⟩

/-- Helper: the expiry check either drops the lemon or appends exactly it. -/
theorem expireStep_lemons (acc : GameState) (l : Lemon) :
    (expireStep acc l).lemons = acc.lemons ∨
    (expireStep acc l).lemons = l :: acc.lemons := by
  unfold expireStep
  split_ifs <;> first | exact Or.inl rfl | exact Or.inr rfl

/-- C6: the sliced flag never reverts, and a collision test on an already
sliced body is a no-op: it reports no hit, and the loop body leaves the
score, slice counter and floating texts unchanged, while every lemon it
keeps is either an untouched earlier survivor or still marked sliced. -/
theorem sliced_collision_noop (dt now : ℝ) (acc : GameState) (l : Lemon)
    (hsl : l.sliced = true) :
    checkCollision now acc.blade l = none ∧
    (bodyStep dt now acc l).score = acc.score ∧
    (bodyStep dt now acc l).fruitsSliced = acc.fruitsSliced ∧
    (bodyStep dt now acc l).floatingTexts = acc.floatingTexts ∧
    (∀ m ∈ (bodyStep dt now acc l).lemons, m ∈ acc.lemons ∨ m.sliced = true) := by
  set l2 := handleBoundaryCollision acc.canvasWidth (integrateLemon acc.gravity dt l) with hl2
  have hsl2 : l2.sliced = true := by
    rw [hl2, handleBoundaryCollision_sliced, integrateLemon_sliced, hsl]
  have hcc2 : checkCollision now acc.blade l2 = none :=
    checkCollision_sliced_none _ _ _ hsl2
  have hb : bodyStep dt now acc l = expireStep acc l2 := by
    unfold bodyStep collideAndExpire
    rw [← hl2, hcc2]
  have hsess := expireStep_session acc l2
  refine ⟨checkCollision_sliced_none _ _ _ hsl, ?_, ?_, ?_, ?_⟩
  · rw [hb]; exact hsess.1
  · rw [hb]; exact hsess.2.1
  · rw [hb]; exact hsess.2.2
  · intro m hm
    rw [hb] at hm
    rcases expireStep_lemons acc l2 with he | he <;> rw [he] at hm
    · exact Or.inl hm
    · rcases List.mem_cons.mp hm with rfl | hm2
      · exact Or.inr hsl2
      · exact Or.inl hm2

/-- Witness for sliced_collision_noop on a concrete sliced lemon. -/
theorem sliced_collision_noop_witness :
    checkCollision 0 emptyState.blade c6Lemon = none ∧
    (bodyStep 0 0 emptyState c6Lemon).score = emptyState.score :=
  ⟨(sliced_collision_noop 0 0 emptyState c6Lemon rfl).1,
   (sliced_collision_noop 0 0 emptyState c6Lemon rfl).2.1⟩

/-- Helper: a well-formed lemon always awards a positive point value. -/
theorem slicePoints_pos (l : Lemon) (h : WFLemon l) : 0 < slicePoints l := by
  unfold slicePoints
  by_cases hs : l.isSpecial = true
  · obtain ⟨f, hf, hp⟩ := h hs
    rw [if_pos hs, hf]
    exact hp
  · rw [if_neg hs]
    norm_num

/-- Helper: integration changes neither the category nor the catalog entry. -/
theorem integrateLemon_fields (g dt : ℝ) (l : Lemon) :
    (integrateLemon g dt l).isSpecial = l.isSpecial ∧
    (integrateLemon g dt l).specialFruit = l.specialFruit := by
  unfold integrateLemon
  split_ifs <;> exact ⟨rfl, rfl⟩

/-- Helper: boundary handling changes neither the category nor the catalog
entry. -/
theorem handleBoundaryCollision_fields (cw : ℝ) (l : Lemon) :
    (handleBoundaryCollision cw l).isSpecial = l.isSpecial ∧
    (handleBoundaryCollision cw l).specialFruit = l.specialFruit := by
  unfold handleBoundaryCollision
  split_ifs <;> exact ⟨rfl, rfl⟩

/-- Helper: the awarded points depend only on the category fields. -/
theorem slicePoints_congr (l m : Lemon) (h1 : m.isSpecial = l.isSpecial)
    (h2 : m.specialFruit = l.specialFruit) : slicePoints m = slicePoints l := by
  unfold slicePoints
  rw [h1, h2]

/-- Helper: a hit result keeps the category and catalog entry of the tested
lemon. -/
theorem checkCollision_fields (now : ℝ) (blade : List TrailPoint) (l lh : Lemon)
    (emit : FloatingText) (h : checkCollision now blade l = some (lh, emit)) :
    lh.isSpecial = l.isSpecial ∧ lh.specialFruit = l.specialFruit := by
  unfold checkCollision at h
  by_cases hs : l.sliced = true
  · rw [if_pos hs] at h
    exact absurd h (by simp)
  · rw [if_neg hs] at h
    cases hfind : findHitSegment (l.x + l.width / 2) (l.y + l.height / 2)
        (hitRadius l) (consecutivePairs blade) with
    | none =>
      rw [hfind] at h
      exact absurd h (by simp)
    | some p =>
      obtain ⟨ps, pe⟩ := p
      rw [hfind] at h
      simp only [Option.some.injEq, Prod.mk.injEq] at h
      obtain ⟨h1, _⟩ := h
      rw [← h1]
      exact ⟨rfl, rfl⟩

/-- Helper: one loop-body step never lowers the score, and raises it only by
the (positive) point value of the processed well-formed lemon. -/
theorem bodyStep_score_mono (dt now : ℝ) (acc : GameState) (l : Lemon)
    (hl : WFLemon l) : acc.score ≤ (bodyStep dt now acc l).score := by
  unfold bodyStep collideAndExpire
  set l2 := handleBoundaryCollision acc.canvasWidth (integrateLemon acc.gravity dt l) with hl2
  have hif := integrateLemon_fields acc.gravity dt l
  have hbf := handleBoundaryCollision_fields acc.canvasWidth (integrateLemon acc.gravity dt l)
  cases hcc : checkCollision now acc.blade l2 with
  | none =>
    exact le_of_eq (expireStep_session acc l2).1.symm
  | some p =>
    obtain ⟨lh, emit⟩ := p
    have hf := checkCollision_fields now acc.blade l2 lh emit hcc
    have hsp : slicePoints lh = slicePoints l := by
      rw [slicePoints_congr l2 lh hf.1 hf.2,
        slicePoints_congr (integrateLemon acc.gravity dt l) l2 hbf.1 hbf.2,
        slicePoints_congr l (integrateLemon acc.gravity dt l) hif.1 hif.2]
    have hpos : 0 < slicePoints lh := by
      rw [hsp]
      exact slicePoints_pos l hl
    have hsess := (expireStep_session
      { acc with
        score := acc.score + slicePoints lh,
        fruitsSliced := acc.fruitsSliced + 1,
        floatingTexts := acc.floatingTexts ++ [emit] }
      { lh with sliced := true }).1
    simp only at hsess
    rw [hsess]
    linarith

/-- Helper: over a list of well-formed lemons, the score never decreases. -/
theorem foldl_bodyStep_score (dt now : ℝ) :
    ∀ (L : List Lemon) (acc : GameState), (∀ l ∈ L, WFLemon l) →
      acc.score ≤ (L.foldl (bodyStep dt now) acc).score := by
  intro L
  induction L with
  | nil => intro acc _; simp
  | cons l L ih =>
    intro acc hwf
    have h1 := bodyStep_score_mono dt now acc l (hwf l (by simp))
    have h2 := ih (bodyStep dt now acc l) (fun m hm => hwf m (by simp [hm]))
    simp only [List.foldl_cons]
    exact le_trans h1 h2

/-- C10: within a session the score is monotone: startGame resets it to 0,
and a fixed tick never decreases it -- each slice only adds the sliced
body's positive point value. -/
theorem updateGame_score_monotone (s : GameState) (deltaMs now : ℝ)
    (hwf : ∀ l ∈ s.lemons, WFLemon l) :
    s.score ≤ (updateGame s deltaMs now).score ∧ (startGame s).score = 0 := by
  have hu : updateGame s deltaMs now =
      s.lemons.reverse.foldl (bodyStep (deltaMs / 1000) now)
        { s with
          lemons := [],
          floatingTexts := updateFloatingTexts now s.floatingTexts } := rfl
  rw [hu]
  have h := foldl_bodyStep_score (deltaMs / 1000) now s.lemons.reverse
    { s with
      lemons := [],
      floatingTexts := updateFloatingTexts now s.floatingTexts }
    (fun m hm => hwf m (List.mem_reverse.mp hm))
  simp only at h
  exact ⟨h, rfl⟩

/-- Witness for updateGame_score_monotone on the empty concrete state. -/
theorem updateGame_score_monotone_witness :
    emptyState.score ≤ (updateGame emptyState (1000/60) 0).score ∧
    (startGame emptyState).score = 0 :=
  updateGame_score_monotone emptyState (1000/60) 0 (by simp [emptyState])
